import Mathlib

/-!
Verification of the African Critical Minerals dashboard (`app.py`).

The development shallowly embeds the program's core:
* the JSON user store and its helpers (`create_user`, `authenticate`,
  the register flow of `auth_section`, the admin delete-user action,
  `save_users`),
* the tabular data layer (`load_data` with its `safe_read` helper and the
  pandas inner-join `merge` chain),
* the map builder (`build_map`).

Pandas data frames are modelled as a column-name list plus a list of rows of
cells; a cell is a string, an exact rational number, or null (NaN in pandas).
Numeric values are modelled exactly (rationals), and a float NaN is the
`PyFloat.nan` constructor.  The werkzeug salted hash is idealised as an
injective tagging function, so that `check_password_hash (hash p) q` holds
exactly when `p = q`.  Python exceptions are `Except Unit` / `Option` where
the control flow of the source depends on them.
-/

unseal Rat.mul Rat.inv Rat.add Rat.sub

namespace ACM

/-! ### User store (`users.json` in-memory content) -/

/-- One record of `users.json`'s `users` array. -/
structure User where
  id : Int
  username : String
  password_hash : String
  role : String
  email : String
  created_at : String
deriving DecidableEq, Repr

/-- The whole persisted store: the user list plus the `next_id` counter. -/
structure Store where
  users : List User
  next_id : Int
deriving DecidableEq, Repr

/-- Idealised model of werkzeug's `generate_password_hash`: the salt is
dropped and the digest is an injective tag of the password, so verification
succeeds exactly for the hashed password. -/
def generate_password_hash (password : String) : String :=
  "pbkdf2-sha256-digest-of:" ++ password

/-- Model of werkzeug's `check_password_hash`. -/
def check_password_hash (hash password : String) : Bool :=
  hash == generate_password_hash password

/-- `create_user(username, password, role, email)` (app.py:57-70): defaults a
blank email to `username@minerals.local`, appends a user with id `next_id`
and the hashed password, and increments `next_id`.  No uniqueness check is
performed at this layer.  `now` stands for `datetime.utcnow().isoformat()`. -/
def create_user (store : Store) (username password role email now : String) : Store :=
  let email' := if email = "" then username ++ "@minerals.local" else email
  { users := store.users ++
      [{ id := store.next_id, username := username,
         password_hash := generate_password_hash password,
         role := role, email := email', created_at := now }],
    next_id := store.next_id + 1 }

/-- The scan loop of `authenticate` (app.py:74-78): the identifier must equal
the username or the email; on a match the password is checked, and on a
failed check the loop continues with the remaining users. -/
def authLoop (login_id password : String) : List User → Option User
  | [] => none
  | u :: rest =>
    if login_id = u.username ∨ login_id = u.email then
      if check_password_hash u.password_hash password then some u
      else authLoop login_id password rest
    else authLoop login_id password rest

/-- `authenticate(login_id, password)` (app.py:72-78). -/
def authenticate (store : Store) (login_id password : String) : Option User :=
  authLoop login_id password store.users

/-- Outcome of the register branch of `auth_section` (app.py:203-217). -/
inductive RegResult where
  | passwordMismatch
  | missingFields
  | invalidAdminCode
  | duplicateUsername
  | success (newStore : Store)
deriving DecidableEq, Repr

/-- The register branch of `auth_section` (app.py:203-217), parameterised by
the configured `ADMIN_SECRET` and the timestamp.  The checks run in source
order: password mismatch, missing username/password, wrong administrator
code (only for the Administrator role), duplicate username, then
`create_user` with the stripped email. -/
def register (secret : String) (store : Store)
    (u email role pw conf admin_code now : String) : RegResult :=
  if pw ≠ conf then .passwordMismatch
  else if u = "" ∨ pw = "" then .missingFields
  else if role = "Administrator" ∧ admin_code ≠ secret then .invalidAdminCode
  else if store.users.any (fun x => x.username == u) then .duplicateUsername
  else .success (create_user store u pw role email.trim now)

/-- The delete-user action of `admin_view` (app.py:310-311): the user list is
replaced by the users whose id differs from the requested id; `next_id` is
not touched. -/
def delete_user (store : Store) (uid : Int) : Store :=
  { users := store.users.filter (fun u => u.id ≠ uid), next_id := store.next_id }

/-- The store seeded by `init_users` when no persisted store exists
(app.py:34-46): exactly the Administrator account with id 1 and
`next_id = 2`. -/
def init_users_store (now : String) : Store :=
  { users := [{ id := 1, username := "admin",
                password_hash := generate_password_hash "password",
                role := "Administrator", email := "admin@minerals.local",
                created_at := now }],
    next_id := 2 }

/-! ### Lemmas about the authentication loop -/

theorem authLoop_eq_none (id pw : String) (l : List User)
    (h : ∀ u ∈ l, (id = u.username ∨ id = u.email) →
        check_password_hash u.password_hash pw = false) :
    authLoop id pw l = none := by
  induction l with
  | nil => rfl
  | cons u rest ih =>
    simp only [authLoop]
    by_cases hm : id = u.username ∨ id = u.email
    · rw [if_pos hm, h u (List.mem_cons_self u rest) hm]
      exact ih fun v hv => h v (List.mem_cons_of_mem u hv)
    · rw [if_neg hm]
      exact ih fun v hv => h v (List.mem_cons_of_mem u hv)

theorem authLoop_append (id pw : String) (l1 l2 : List User) :
    authLoop id pw (l1 ++ l2) =
      (authLoop id pw l1).or (authLoop id pw l2) := by
  induction l1 with
  | nil => rfl
  | cons u rest ih =>
    simp only [List.cons_append, authLoop]
    by_cases hm : id = u.username ∨ id = u.email
    · rw [if_pos hm, if_pos hm]
      by_cases hc : check_password_hash u.password_hash pw
      · rw [if_pos hc, if_pos hc]; rfl
      · rw [if_neg hc, if_neg hc]; exact ih
    · rw [if_neg hm, if_neg hm]; exact ih

theorem check_hash_of_self (p : String) :
    check_password_hash (generate_password_hash p) p = true := by
  simp [check_password_hash]

/-- C1: after `create_user(username, password, role, email)` on a store in
which no existing user's username or email equals the new username,
`authenticate(username, password)` returns a user whose username is the
given username; and `authenticate` returns `none` whenever every user whose
username or email equals the identifier fails password verification, and in
particular whenever no user's username or email equals the identifier. -/
theorem create_then_authenticate_ok :
    (∀ (store : Store) (username password role email now : String),
        (∀ u ∈ store.users, u.username ≠ username ∧ u.email ≠ username) →
        (authenticate (create_user store username password role email now)
            username password).map (fun u => u.username) = some username)
  ∧ (∀ (store : Store) (id pw : String),
        (∀ u ∈ store.users, (id = u.username ∨ id = u.email) →
            check_password_hash u.password_hash pw = false) →
        authenticate store id pw = none)
  ∧ (∀ (store : Store) (id pw : String),
        (∀ u ∈ store.users, id ≠ u.username ∧ id ≠ u.email) →
        authenticate store id pw = none) := by
  refine ⟨?_, ?_, ?_⟩
  · intro store username password role email now hfresh
    unfold authenticate create_user
    simp only
    rw [authLoop_append]
    rw [authLoop_eq_none username password store.users
        (fun u hu hm => absurd hm (by
          rcases hfresh u hu with ⟨h1, h2⟩
          push_neg
          exact ⟨fun he => h1 he.symm, fun he => h2 he.symm⟩))]
    simp [authLoop, check_hash_of_self]
  · intro store id pw h
    exact authLoop_eq_none id pw store.users h
  · intro store id pw h
    refine authLoop_eq_none id pw store.users fun u hu hm => absurd hm ?_
    rcases h u hu with ⟨h1, h2⟩
    push_neg
    exact ⟨h1, h2⟩

/-- Witness for the C1 theorem at a concrete store and credentials. -/
theorem create_then_authenticate_ok_witness :
    (authenticate
        (create_user (init_users_store "t0") "alice" "secret1" "Researcher" "" "t1")
        "alice" "secret1").map (fun u => u.username) = some "alice" :=
  create_then_authenticate_ok.1 (init_users_store "t0") "alice" "secret1"
    "Researcher" "" "t1" (by decide)

/-- C9 concrete scenario: two users share the identifier
`bob@minerals.local` (the first as their email, the second as a duplicate
email); the first user's password check fails, and the second is returned. -/
def dupUserEarly : User :=
  { id := 2, username := "bob", password_hash := generate_password_hash "apass",
    role := "Researcher", email := "bob@minerals.local", created_at := "t" }

/-- The later user of the C9 scenario, sharing the earlier user's email. -/
def dupUserLate : User :=
  { id := 3, username := "carol", password_hash := generate_password_hash "bpass",
    role := "Researcher", email := "bob@minerals.local", created_at := "t" }

/-- The two-user store of the C9 scenario. -/
def dupIdStore : Store :=
  { users := [dupUserEarly, dupUserLate], next_id := 4 }

/-- C9: `authenticate` returns the first user for whom the identifier
matches username or email AND the password verifies (it equals `find?` of
that conjunction); a user whose identifier matches but whose password fails
verification is skipped rather than ending the scan; concretely, with two
users sharing the identifier `bob@minerals.local`, the later user with the
matching password is returned. -/
theorem authenticate_first_verified_match :
    (∀ (store : Store) (id pw : String),
        authenticate store id pw =
          store.users.find? (fun u =>
            (id == u.username || id == u.email) &&
              check_password_hash u.password_hash pw))
  ∧ (∀ (u0 : User) (rest : List User) (n : Int) (id pw : String),
        (id = u0.username ∨ id = u0.email) →
        check_password_hash u0.password_hash pw = false →
        authenticate ⟨u0 :: rest, n⟩ id pw = authenticate ⟨rest, n⟩ id pw)
  ∧ ((authenticate dupIdStore "bob@minerals.local" "bpass").map
        (fun u => u.username) = some "carol") := by
  refine ⟨?_, ?_, by decide⟩
  · intro store id pw
    show authLoop id pw store.users = _
    induction store.users with
    | nil => rfl
    | cons u rest ih =>
      simp only [authLoop, List.find?]
      by_cases hm : id = u.username ∨ id = u.email
      · have hb : (id == u.username || id == u.email) = true := by
          rcases hm with h | h
          · simp [h]
          · simp [h]
        rw [if_pos hm, hb]
        by_cases hc : check_password_hash u.password_hash pw
        · rw [if_pos hc]; simp [hc]
        · rw [if_neg hc]
          simp only [Bool.true_and]
          rw [Bool.not_eq_true] at hc
          rw [hc]
          exact ih
      · have hb : (id == u.username || id == u.email) = false := by
          push_neg at hm
          simp [hm.1, hm.2]
        rw [if_neg hm, hb]
        simp only [Bool.false_and]
        exact ih
  · intro u0 rest n id pw hm hc
    show authLoop id pw (u0 :: rest) = authLoop id pw rest
    simp only [authLoop]
    rw [if_pos hm, hc]
    rfl

/-- Witness for the C9 theorem: the skip behaviour at a concrete store. -/
theorem authenticate_first_verified_match_witness :
    authenticate ⟨dupUserEarly :: [dupUserLate], 4⟩ "bob@minerals.local" "bpass" =
      authenticate ⟨[dupUserLate], 4⟩ "bob@minerals.local" "bpass" :=
  authenticate_first_verified_match.2.1 dupUserEarly [dupUserLate] 4
    "bob@minerals.local" "bpass" (Or.inr (by decide)) (by decide)

/-- C2 fails as stated: with role Administrator, a wrong admin code, and
mismatching passwords, the reported error is the password mismatch, not
`InvalidAdminCodeError` — the admin-code check runs only third. -/
theorem register_wrong_code_counterexample :
    register "letmein" (init_users_store "t0") "newuser" "" "Administrator"
        "pw1" "pw2" "wrongcode" "t1" = .passwordMismatch ∧
    register "letmein" (init_users_store "t0") "newuser" "" "Administrator"
        "pw1" "pw2" "wrongcode" "t1" ≠ .invalidAdminCode := by
  decide

/-- C2 amended: with role Administrator and a wrong admin code, registration
never succeeds for any values of the other fields; the error reported is
`InvalidAdminCodeError` exactly when the passwords match and the username
and password are non-empty (the mismatch and missing-fields checks run
first). -/
theorem register_wrong_code_fails (secret : String) (store : Store)
    (u email pw conf code now : String) (hcode : code ≠ secret) :
    (∀ st, register secret store u email "Administrator" pw conf code now ≠
        .success st)
  ∧ (pw = conf → u ≠ "" → pw ≠ "" →
      register secret store u email "Administrator" pw conf code now =
        .invalidAdminCode) := by
  constructor
  · intro st h
    unfold register at h
    by_cases h1 : pw ≠ conf
    · rw [if_pos h1] at h; exact RegResult.noConfusion h
    · rw [if_neg h1] at h
      by_cases h2 : u = "" ∨ pw = ""
      · rw [if_pos h2] at h; exact RegResult.noConfusion h
      · rw [if_neg h2, if_pos ⟨rfl, hcode⟩] at h
        exact RegResult.noConfusion h
  · intro hpc hu hpw
    unfold register
    rw [if_neg (by simpa using hpc), if_neg (by push_neg; exact ⟨hu, hpw⟩),
      if_pos ⟨rfl, hcode⟩]

/-- Witness for the amended C2 theorem at concrete field values. -/
theorem register_wrong_code_fails_witness :
    register "letmein" (init_users_store "t0") "dana" "" "Administrator"
        "pw" "pw" "oops" "t1" = .invalidAdminCode :=
  (register_wrong_code_fails "letmein" (init_users_store "t0") "dana" ""
      "pw" "pw" "oops" "t1" (by decide)).2 rfl (by decide) (by decide)

/-- C10: the admin delete-user action keeps exactly the users whose id
differs from the requested id (in their original order, as a sublist),
leaves `next_id` unchanged, is a no-op when no user has the id, and — since
the UI constrains the id input to values ≥ 2 — never removes a user with
id 1 (the seeded Administrator). -/
theorem delete_user_spec (store : Store) (uid : Int) :
    ((delete_user store uid).next_id = store.next_id)
  ∧ (∀ u : User, u ∈ (delete_user store uid).users ↔
        (u ∈ store.users ∧ u.id ≠ uid))
  ∧ (delete_user store uid).users.Sublist store.users
  ∧ ((∀ u ∈ store.users, u.id ≠ uid) → delete_user store uid = store)
  ∧ (2 ≤ uid → ∀ u ∈ store.users, u.id = 1 →
        u ∈ (delete_user store uid).users) := by
  refine ⟨rfl, ?_, List.filter_sublist store.users, ?_, ?_⟩
  · intro u
    simp [delete_user, List.mem_filter]
  · intro h
    cases store with
    | mk users nid =>
      simp only [delete_user, Store.mk.injEq, and_true]
      apply List.filter_eq_self.mpr
      intro u hu
      simpa using h u hu
  · intro huid u hu h1
    simp only [delete_user, List.mem_filter]
    refine ⟨hu, by simp [h1]; omega⟩

/-- Witness for the C10 theorem: deleting id 2 from a concrete two-user
store keeps the seeded Administrator. -/
theorem delete_user_spec_witness :
    (2 : Int) ≤ 2 ∧
    (init_users_store "t0").users.head (by decide) ∈
      (delete_user (create_user (init_users_store "t0") "eve" "p" "Researcher" "" "t1")
        2).users := by
  refine ⟨by decide, ?_⟩
  refine (delete_user_spec
      (create_user (init_users_store "t0") "eve" "p" "Researcher" "" "t1")
      2).2.2.2.2 (by decide) _ (by decide) (by decide)

/-! ### Tabular data layer (pandas data frames read from the CSV sources)

A data frame is a list of column names plus a list of rows of cells; a cell
is a string, an exact rational (the model of a numeric value), or null
(pandas NaN).  `merge` is pandas `a.merge(b, on=k)`: it fails (raises
`KeyError`, modelled as `none`) when the key column is missing from either
frame, and otherwise inner-joins, keeping the left frame's row order and
dropping the right frame's key column.  The modelled fragment assumes the
non-key column names of the two frames are disjoint (true for the four
canonical schemas), so pandas suffixing never fires. -/

/-- One cell of a data frame. -/
inductive CVal where
  | str (s : String)
  | num (q : Rat)
  | null
deriving DecidableEq, Repr

/-- A pandas data frame: column names plus rows of cells. -/
structure DFrame where
  cols : List String
  rows : List (List CVal)
deriving DecidableEq, Repr

/-- `df.empty` of pandas: no rows. -/
def DFrame.empty (df : DFrame) : Bool := df.rows.isEmpty

/-- Rectangularity: every row has one cell per column. -/
def DFrame.wf (df : DFrame) : Prop := ∀ r ∈ df.rows, r.length = df.cols.length

instance (df : DFrame) : Decidable df.wf := by
  unfold DFrame.wf
  infer_instance

/-- Index of a column label in a header (first occurrence, as pandas
label-based access uses). -/
def colIdxL (cols : List String) (k : String) : Option Nat :=
  cols.findIdx? (fun c => c == k)

/-- Label-based cell access `r[k]` for a row of `df`. -/
def DFrame.cell (df : DFrame) (r : List CVal) (k : String) : Option CVal :=
  (colIdxL df.cols k).bind (fun i => r[i]?)

/-- pandas `a.merge(b, on := k)` (inner join): `none` models the `KeyError`
raised when `k` is missing from either frame. -/
def DFrame.merge (a b : DFrame) (k : String) : Option DFrame :=
  match colIdxL a.cols k, colIdxL b.cols k with
  | some ia, some ib =>
    some { cols := a.cols ++ b.cols.eraseIdx ib,
           rows := a.rows.flatMap (fun ra =>
             (b.rows.filter (fun rb => decide (rb[ib]? = ra[ia]?))).map
               (fun rb => ra ++ rb.eraseIdx ib)) }
  | _, _ => none

/-- State of one CSV source file on disk. -/
inductive FileState where
  | absent
  | malformed
  | parsed (df : DFrame)
deriving DecidableEq, Repr

/-- `safe_read(name, cols)` inside `load_data` (app.py:83-90): an absent
file yields `pd.DataFrame(columns=cols)`; a file that exists but fails to
parse yields `pd.DataFrame()` (no columns at all); otherwise the parsed
frame. -/
def safe_read (fs : FileState) (cols : List String) : DFrame :=
  match fs with
  | .absent => { cols := cols, rows := [] }
  | .malformed => { cols := [], rows := [] }
  | .parsed df => df

def countriesCols : List String :=
  ["CountryID", "CountryName", "GDP_BillionUSD", "MiningRevenue_BillionUSD",
   "KeyProjects"]

def mineralsCols : List String :=
  ["MineralID", "MineralName", "Description"]

def productionCols : List String :=
  ["CountryID", "MineralID", "Production_tonnes", "ExportValue_BillionUSD"]

def sitesCols : List String :=
  ["SiteID", "SiteName", "CountryID", "MineralID", "Latitude", "Longitude",
   "Production_tonnes"]

/-- The on-disk state of the four sources when `load_data` runs. -/
structure LoadInput where
  countries : FileState
  minerals : FileState
  production : FileState
  sites : FileState
deriving DecidableEq, Repr

/-- The four frames returned by `load_data`. -/
structure Tables where
  countries : DFrame
  minerals : DFrame
  production : DFrame
  sites : DFrame
deriving DecidableEq, Repr

/-- The guarded, exception-swallowing join step of `load_data`
(app.py:95-104): only when the frame and both dimension tables are
non-empty, merge with countries on CountryID then minerals on MineralID; if
either merge raises, the unjoined frame is kept. -/
def joinCM (df c m : DFrame) : DFrame :=
  if df.empty = false ∧ c.empty = false ∧ m.empty = false then
    match (df.merge c "CountryID").bind (fun d => d.merge m "MineralID") with
    | some d => d
    | none => df
  else df

/-- `load_data()` (app.py:82-105): read the four sources defensively, then
apply the join step to the production and sites frames. -/
def load_data (inp : LoadInput) : Tables :=
  let countries := safe_read inp.countries countriesCols
  let minerals := safe_read inp.minerals mineralsCols
  let production := safe_read inp.production productionCols
  let sites := safe_read inp.sites sitesCols
  { countries := countries, minerals := minerals,
    production := joinCM production countries minerals,
    sites := joinCM sites countries minerals }

/-- A load input whose countries file exists but cannot be parsed, the
other three files being absent. -/
def c3Input : LoadInput :=
  { countries := .malformed, minerals := .absent, production := .absent,
    sites := .absent }

/-- C3 fails as stated: when a source file exists but fails to parse,
`load()` yields an empty frame with NO columns (`pd.DataFrame()`), not one
carrying the expected column schema. -/
theorem safe_read_malformed_counterexample :
    (load_data c3Input).countries.rows = [] ∧
    (load_data c3Input).countries.cols = [] ∧
    ([] : List String) ≠ countriesCols := by decide

/-- C3 amended: `load()` never raises; an absent source yields an empty
frame carrying the expected column schema, while a source that exists but
fails to parse yields an empty frame with no columns at all. -/
theorem load_data_degraded (inp : LoadInput) :
    ((inp.countries = .absent → (load_data inp).countries = ⟨countriesCols, []⟩)
  ∧ (inp.countries = .malformed → (load_data inp).countries = ⟨[], []⟩))
  ∧ ((inp.minerals = .absent → (load_data inp).minerals = ⟨mineralsCols, []⟩)
  ∧ (inp.minerals = .malformed → (load_data inp).minerals = ⟨[], []⟩))
  ∧ ((inp.production = .absent → (load_data inp).production = ⟨productionCols, []⟩)
  ∧ (inp.production = .malformed → (load_data inp).production = ⟨[], []⟩))
  ∧ ((inp.sites = .absent → (load_data inp).sites = ⟨sitesCols, []⟩)
  ∧ (inp.sites = .malformed → (load_data inp).sites = ⟨[], []⟩)) := by
  refine ⟨⟨?_, ?_⟩, ⟨?_, ?_⟩, ⟨?_, ?_⟩, ⟨?_, ?_⟩⟩ <;>
    intro h <;>
    simp [load_data, safe_read, h, joinCM, DFrame.empty]

/-- Witness for the amended C3 theorem at a concrete input. -/
theorem load_data_degraded_witness :
    (load_data c3Input).production = ⟨productionCols, []⟩ :=
  (load_data_degraded c3Input).2.2.1.1 rfl

/-- C4 concrete scenario, countries table. -/
def zedCountries : DFrame :=
  { cols := countriesCols,
    rows := [[.num 1, .str "Zed", .num 10, .num 2, .str "P1"]] }

/-- C4 concrete scenario, minerals table. -/
def cobaltMinerals : DFrame :=
  { cols := mineralsCols, rows := [[.num 1, .str "Cobalt", .str "d"]] }

/-- C4 concrete scenario, production table. -/
def zedProduction : DFrame :=
  { cols := productionCols, rows := [[.num 1, .num 1, .num 100, .num 5]] }

/-- C4 concrete scenario: the three parsed sources, sites absent. -/
def c4Input : LoadInput :=
  { countries := .parsed zedCountries, minerals := .parsed cobaltMinerals,
    production := .parsed zedProduction, sites := .absent }

/-- The single joined row the C4 scenario must produce. -/
def zedJoinedRow : List CVal :=
  [.num 1, .num 1, .num 100, .num 5, .str "Zed", .num 10, .num 2, .str "P1",
   .str "Cobalt", .str "d"]

/-- The joined production frame produced by the C4 scenario. -/
def zedJoinedFrame : DFrame :=
  { cols := ["CountryID", "MineralID", "Production_tonnes",
             "ExportValue_BillionUSD", "CountryName", "GDP_BillionUSD",
             "MiningRevenue_BillionUSD", "KeyProjects", "MineralName",
             "Description"],
    rows := [zedJoinedRow] }

/-- C4: on the concrete scenario the joined production view has exactly one
row with CountryName "Zed", MineralName "Cobalt" and Production_tonnes 100;
and in general, whenever the production (resp. sites) frame and both
dimension frames are non-empty, `load()` returns the chained inner join
when it succeeds and falls back to the unjoined frame when the join
raises. -/
theorem load_data_join_spec :
    ((load_data c4Input).production.rows = [zedJoinedRow]
      ∧ (load_data c4Input).production.cell zedJoinedRow "CountryName" =
          some (.str "Zed")
      ∧ (load_data c4Input).production.cell zedJoinedRow "MineralName" =
          some (.str "Cobalt")
      ∧ (load_data c4Input).production.cell zedJoinedRow "Production_tonnes" =
          some (.num 100))
  ∧ (∀ (inp : LoadInput) (p c m : DFrame),
      inp.production = .parsed p → inp.countries = .parsed c →
      inp.minerals = .parsed m →
      p.empty = false → c.empty = false → m.empty = false →
      (∀ d, (p.merge c "CountryID").bind (fun x => x.merge m "MineralID") =
            some d → (load_data inp).production = d)
      ∧ ((p.merge c "CountryID").bind (fun x => x.merge m "MineralID") =
            none → (load_data inp).production = p))
  ∧ (∀ (inp : LoadInput) (s c m : DFrame),
      inp.sites = .parsed s → inp.countries = .parsed c →
      inp.minerals = .parsed m →
      s.empty = false → c.empty = false → m.empty = false →
      (∀ d, (s.merge c "CountryID").bind (fun x => x.merge m "MineralID") =
            some d → (load_data inp).sites = d)
      ∧ ((s.merge c "CountryID").bind (fun x => x.merge m "MineralID") =
            none → (load_data inp).sites = s)) := by
  refine ⟨by decide, ?_, ?_⟩
  · intro inp p c m hp hc hm hpe hce hme
    have hout : (load_data inp).production = joinCM p c m := by
      simp [load_data, hp, hc, hm, safe_read]
    constructor
    · intro d hd
      rw [hout]; unfold joinCM
      rw [if_pos ⟨hpe, hce, hme⟩, hd]
    · intro hd
      rw [hout]; unfold joinCM
      rw [if_pos ⟨hpe, hce, hme⟩, hd]
  · intro inp s c m hs hc hm hse hce hme
    have hout : (load_data inp).sites = joinCM s c m := by
      simp [load_data, hs, hc, hm, safe_read]
    constructor
    · intro d hd
      rw [hout]; unfold joinCM
      rw [if_pos ⟨hse, hce, hme⟩, hd]
    · intro hd
      rw [hout]; unfold joinCM
      rw [if_pos ⟨hse, hce, hme⟩, hd]

/-- Witness for the C4 theorem: the general join branch applied to the
concrete scenario. -/
theorem load_data_join_spec_witness :
    (load_data c4Input).production = zedJoinedFrame :=
  (load_data_join_spec.2.1 c4Input zedProduction zedCountries cobaltMinerals
    rfl rfl rfl (by decide) (by decide) (by decide)).1 zedJoinedFrame
    (by decide)

/-! ### Structure of merged rows -/

theorem merge_eq_some {a b : DFrame} {k : String} {ia ib : Nat}
    (ha : colIdxL a.cols k = some ia) (hb : colIdxL b.cols k = some ib) :
    a.merge b k = some
      { cols := a.cols ++ b.cols.eraseIdx ib,
        rows := a.rows.flatMap (fun ra =>
          (b.rows.filter (fun rb => decide (rb[ib]? = ra[ia]?))).map
            (fun rb => ra ++ rb.eraseIdx ib)) } := by
  unfold DFrame.merge
  rw [ha, hb]

theorem merge_rows_mem {a b : DFrame} {k : String} {ia ib : Nat} {d : DFrame}
    (ha : colIdxL a.cols k = some ia) (hb : colIdxL b.cols k = some ib)
    (hd : a.merge b k = some d) :
    d.cols = a.cols ++ b.cols.eraseIdx ib ∧
    ∀ r ∈ d.rows, ∃ ra ∈ a.rows, ∃ rb ∈ b.rows,
      rb[ib]? = ra[ia]? ∧ r = ra ++ rb.eraseIdx ib := by
  rw [merge_eq_some ha hb] at hd
  injection hd with hd
  subst hd
  refine ⟨rfl, ?_⟩
  intro r hr
  simp only [List.mem_flatMap, List.mem_map, List.mem_filter] at hr
  obtain ⟨ra, hra, rb, ⟨hrb, hkey⟩, rfl⟩ := hr
  exact ⟨ra, hra, rb, hrb, by simpa using hkey, rfl⟩

theorem load_data_production_eq (inp : LoadInput) (p c m : DFrame)
    (hp : inp.production = .parsed p) (hc : inp.countries = .parsed c)
    (hm : inp.minerals = .parsed m) :
    (load_data inp).production = joinCM p c m := by
  simp [load_data, hp, hc, hm, safe_read]

theorem load_data_sites_eq (inp : LoadInput) (s c m : DFrame)
    (hs : inp.sites = .parsed s) (hc : inp.countries = .parsed c)
    (hm : inp.minerals = .parsed m) :
    (load_data inp).sites = joinCM s c m := by
  simp [load_data, hs, hc, hm, safe_read]

theorem joinCM_eq_of_some {df c m d : DFrame}
    (he1 : df.empty = false) (he2 : c.empty = false) (he3 : m.empty = false)
    (hchain : (df.merge c "CountryID").bind (fun x => x.merge m "MineralID") =
      some d) :
    joinCM df c m = d := by
  unfold joinCM
  rw [if_pos ⟨he1, he2, he3⟩, hchain]

/-- A countries table whose single row has a null CountryName cell (an
empty CSV cell is read as NaN). -/
def nullNameCountries : DFrame :=
  { cols := countriesCols,
    rows := [[.num 1, .null, .num 10, .num 2, .str "P1"]] }

/-- Input exhibiting the C5 counterexample. -/
def c5Input : LoadInput :=
  { countries := .parsed nullNameCountries, minerals := .parsed cobaltMinerals,
    production := .parsed zedProduction, sites := .absent }

/-- The joined row of the C5 counterexample. -/
def c5NullRow : List CVal :=
  [.num 1, .num 1, .num 100, .num 5, .null, .num 10, .num 2, .str "P1",
   .str "Cobalt", .str "d"]

/-- C5 fails as stated: a country row with a null CountryName still joins
on its id, so a row of the joined production view carries a null
CountryName. -/
theorem joined_null_name_counterexample :
    (load_data c5Input).production.rows = [c5NullRow] ∧
    (load_data c5Input).production.cell c5NullRow "CountryName" =
      some CVal.null := by decide

/-- C5 amended: for canonical, rectangular source tables, every row of the
joined production (resp. sites) view comes from a production (resp. sites)
row, a country row and a mineral row with matching CountryID and MineralID
— no unmatched foreign key appears — and its CountryName and MineralName
cells are exactly the matched country's and mineral's name cells (present,
and non-null whenever the source names are non-null). -/
theorem joined_rows_matched :
    (∀ (inp : LoadInput) (p c m : DFrame),
      inp.production = .parsed p → inp.countries = .parsed c →
      inp.minerals = .parsed m →
      p.cols = productionCols → c.cols = countriesCols →
      m.cols = mineralsCols →
      p.wf → c.wf → m.wf →
      p.empty = false → c.empty = false → m.empty = false →
      ∀ r ∈ (load_data inp).production.rows,
        ∃ rp ∈ p.rows, ∃ rc ∈ c.rows, ∃ rm ∈ m.rows,
          rc[0]? = rp[0]? ∧ rm[0]? = rp[1]? ∧
          (load_data inp).production.cell r "CountryName" = rc[1]? ∧
          rc[1]? ≠ none ∧
          (load_data inp).production.cell r "MineralName" = rm[1]? ∧
          rm[1]? ≠ none)
  ∧ (∀ (inp : LoadInput) (s c m : DFrame),
      inp.sites = .parsed s → inp.countries = .parsed c →
      inp.minerals = .parsed m →
      s.cols = sitesCols → c.cols = countriesCols → m.cols = mineralsCols →
      s.wf → c.wf → m.wf →
      s.empty = false → c.empty = false → m.empty = false →
      ∀ r ∈ (load_data inp).sites.rows,
        ∃ rs ∈ s.rows, ∃ rc ∈ c.rows, ∃ rm ∈ m.rows,
          rc[0]? = rs[2]? ∧ rm[0]? = rs[3]? ∧
          (load_data inp).sites.cell r "CountryName" = rc[1]? ∧
          rc[1]? ≠ none ∧
          (load_data inp).sites.cell r "MineralName" = rm[1]? ∧
          rm[1]? ≠ none) := by
  constructor
  · intro inp p c m hp hc hm hpc hcc hmc hpw hcw hmw hpe hce hme r hr
    have hia1 : colIdxL p.cols "CountryID" = some 0 := by rw [hpc]; rfl
    have hib1 : colIdxL c.cols "CountryID" = some 0 := by rw [hcc]; rfl
    obtain ⟨d1, hd1⟩ : ∃ d1, p.merge c "CountryID" = some d1 :=
      ⟨_, merge_eq_some hia1 hib1⟩
    obtain ⟨hd1cols, hd1rows⟩ := merge_rows_mem hia1 hib1 hd1
    have hd1c : d1.cols = productionCols ++ countriesCols.eraseIdx 0 := by
      rw [hd1cols, hpc, hcc]
    have hia2 : colIdxL d1.cols "MineralID" = some 1 := by rw [hd1c]; rfl
    have hib2 : colIdxL m.cols "MineralID" = some 0 := by rw [hmc]; rfl
    obtain ⟨d2, hd2⟩ : ∃ d2, d1.merge m "MineralID" = some d2 :=
      ⟨_, merge_eq_some hia2 hib2⟩
    obtain ⟨hd2cols, hd2rows⟩ := merge_rows_mem hia2 hib2 hd2
    have hout : (load_data inp).production = d2 := by
      rw [load_data_production_eq inp p c m hp hc hm]
      refine joinCM_eq_of_some hpe hce hme ?_
      rw [hd1]
      simpa using hd2
    rw [hout] at hr ⊢
    obtain ⟨r1, hr1, rm, hrm, hkey2, rfl⟩ := hd2rows r hr
    obtain ⟨rp, hrp, rc, hrc, hkey1, rfl⟩ := hd1rows r1 hr1
    have hrpl : rp.length = 4 := by
      have h := hpw rp hrp; rw [hpc] at h; simpa using h
    have hrcl : rc.length = 5 := by
      have h := hcw rc hrc; rw [hcc] at h; simpa using h
    have hrml : rm.length = 3 := by
      have h := hmw rm hrm; rw [hmc] at h; simpa using h
    have hidxCN : colIdxL d2.cols "CountryName" = some 4 := by
      rw [hd2cols, hd1c, hmc]; rfl
    have hidxMN : colIdxL d2.cols "MineralName" = some 8 := by
      rw [hd2cols, hd1c, hmc]; rfl
    cases rc with
    | nil => simp at hrcl
    | cons c0 ctl =>
    cases rm with
    | nil => simp at hrml
    | cons m0 mtl =>
    simp only [List.eraseIdx_cons_zero] at hkey2 ⊢
    have hctl : ctl.length = 4 := by simpa using hrcl
    have hmtl : mtl.length = 2 := by simpa using hrml
    have hl8 : (rp ++ ctl).length = 8 := by
      rw [List.length_append]; omega
    refine ⟨rp, hrp, c0 :: ctl, hrc, m0 :: mtl, hrm, hkey1, ?_, ?_, ?_, ?_, ?_⟩
    · rw [hkey2, List.getElem?_append_left (by omega)]
    · unfold DFrame.cell
      rw [hidxCN, Option.some_bind,
        List.getElem?_append_left (by omega),
        List.getElem?_append_right (by omega), hrpl]
      simp
    · intro hnone
      rw [List.getElem?_cons_succ, List.getElem?_eq_none_iff] at hnone
      omega
    · unfold DFrame.cell
      rw [hidxMN, Option.some_bind,
        List.getElem?_append_right (by omega), hl8]
      simp
    · intro hnone
      rw [List.getElem?_cons_succ, List.getElem?_eq_none_iff] at hnone
      omega
  · intro inp s c m hs hc hm hsc hcc hmc hsw hcw hmw hse hce hme r hr
    have hia1 : colIdxL s.cols "CountryID" = some 2 := by rw [hsc]; rfl
    have hib1 : colIdxL c.cols "CountryID" = some 0 := by rw [hcc]; rfl
    obtain ⟨d1, hd1⟩ : ∃ d1, s.merge c "CountryID" = some d1 :=
      ⟨_, merge_eq_some hia1 hib1⟩
    obtain ⟨hd1cols, hd1rows⟩ := merge_rows_mem hia1 hib1 hd1
    have hd1c : d1.cols = sitesCols ++ countriesCols.eraseIdx 0 := by
      rw [hd1cols, hsc, hcc]
    have hia2 : colIdxL d1.cols "MineralID" = some 3 := by rw [hd1c]; rfl
    have hib2 : colIdxL m.cols "MineralID" = some 0 := by rw [hmc]; rfl
    obtain ⟨d2, hd2⟩ : ∃ d2, d1.merge m "MineralID" = some d2 :=
      ⟨_, merge_eq_some hia2 hib2⟩
    obtain ⟨hd2cols, hd2rows⟩ := merge_rows_mem hia2 hib2 hd2
    have hout : (load_data inp).sites = d2 := by
      rw [load_data_sites_eq inp s c m hs hc hm]
      refine joinCM_eq_of_some hse hce hme ?_
      rw [hd1]
      simpa using hd2
    rw [hout] at hr ⊢
    obtain ⟨r1, hr1, rm, hrm, hkey2, rfl⟩ := hd2rows r hr
    obtain ⟨rs, hrs, rc, hrc, hkey1, rfl⟩ := hd1rows r1 hr1
    have hrsl : rs.length = 7 := by
      have h := hsw rs hrs; rw [hsc] at h; simpa using h
    have hrcl : rc.length = 5 := by
      have h := hcw rc hrc; rw [hcc] at h; simpa using h
    have hrml : rm.length = 3 := by
      have h := hmw rm hrm; rw [hmc] at h; simpa using h
    have hidxCN : colIdxL d2.cols "CountryName" = some 7 := by
      rw [hd2cols, hd1c, hmc]; rfl
    have hidxMN : colIdxL d2.cols "MineralName" = some 11 := by
      rw [hd2cols, hd1c, hmc]; rfl
    cases rc with
    | nil => simp at hrcl
    | cons c0 ctl =>
    cases rm with
    | nil => simp at hrml
    | cons m0 mtl =>
    simp only [List.eraseIdx_cons_zero] at hkey2 ⊢
    have hctl : ctl.length = 4 := by simpa using hrcl
    have hmtl : mtl.length = 2 := by simpa using hrml
    have hl11 : (rs ++ ctl).length = 11 := by
      rw [List.length_append]; omega
    refine ⟨rs, hrs, c0 :: ctl, hrc, m0 :: mtl, hrm, hkey1, ?_, ?_, ?_, ?_, ?_⟩
    · rw [hkey2, List.getElem?_append_left (by omega)]
    · unfold DFrame.cell
      rw [hidxCN, Option.some_bind,
        List.getElem?_append_left (by omega),
        List.getElem?_append_right (by omega), hrsl]
      simp
    · intro hnone
      rw [List.getElem?_cons_succ, List.getElem?_eq_none_iff] at hnone
      omega
    · unfold DFrame.cell
      rw [hidxMN, Option.some_bind,
        List.getElem?_append_right (by omega), hl11]
      simp
    · intro hnone
      rw [List.getElem?_cons_succ, List.getElem?_eq_none_iff] at hnone
      omega

/-- Witness for the amended C5 theorem at the concrete C4 scenario. -/
theorem joined_rows_matched_witness :
    ∃ rp ∈ zedProduction.rows, ∃ rc ∈ zedCountries.rows,
      ∃ rm ∈ cobaltMinerals.rows,
        rc[0]? = rp[0]? ∧ rm[0]? = rp[1]? ∧
        (load_data c4Input).production.cell zedJoinedRow "CountryName" =
          rc[1]? ∧
        rc[1]? ≠ none ∧
        (load_data c4Input).production.cell zedJoinedRow "MineralName" =
          rm[1]? ∧
        rm[1]? ≠ none :=
  joined_rows_matched.1 c4Input zedProduction zedCountries cobaltMinerals
    rfl rfl rfl rfl rfl rfl (by decide) (by decide) (by decide)
    (by decide) (by decide) (by decide) zedJoinedRow (by decide)

/-! ### Map builder (`build_map`)

Floats are modelled as `PyFloat`: NaN or an exact rational.  The numeric
string parsing of Python `float()` / pandas `to_numeric` is modelled for
plain decimal literals (optional sign, digits, optional fractional part);
claims are stated through the parse outcome, so the unmodelled exotic
forms (exponents, `inf`, whitespace) do not affect them. -/

/-- A Python float: NaN or an exact number. -/
inductive PyFloat where
  | nan
  | val (q : Rat)
deriving DecidableEq, Repr

/-- Python truthiness of a float: NaN and every non-zero number are truthy;
only 0.0 is falsy. -/
def PyFloat.truthy : PyFloat → Bool
  | .nan => true
  | .val q => q != 0

/-- Python `x or 0` as used on the map centre (app.py:144). -/
def pyOr0 (x : PyFloat) : PyFloat :=
  if x.truthy then x else .val 0

/-- Decimal-literal parsing, the modelled fragment of Python `float(s)`. -/
def parseNum (s : String) : Option Rat :=
  let cs := s.toList
  let signBody : Bool × List Char :=
    match cs with
    | '-' :: rest => (true, rest)
    | '+' :: rest => (false, rest)
    | _ => (false, cs)
  let ip := signBody.2.takeWhile (fun c => c ≠ '.')
  let rest := signBody.2.dropWhile (fun c => c ≠ '.')
  let fp : Option (List Char) :=
    match rest with
    | [] => some []
    | _ :: fs => if fs.contains '.' then none else some fs
  match fp with
  | none => none
  | some fs =>
    if ip.isEmpty ∧ fs.isEmpty then none
    else if ip.all Char.isDigit ∧ fs.all Char.isDigit then
      let ipn : Nat := ip.foldl (fun n c => 10 * n + (c.toNat - 48)) 0
      let fpn : Nat := fs.foldl (fun n c => 10 * n + (c.toNat - 48)) 0
      let mag : Rat := (ipn : Rat) + (fpn : Rat) / ((10 : Rat) ^ fs.length)
      some (if signBody.1 then -mag else mag)
    else none

/-- Python `float(cell)` in the marker loop (app.py:151): a NaN cell stays
NaN without raising, a number is itself, an unparseable string raises
(`none`). -/
def floatOfCell : CVal → Option PyFloat
  | .null => some .nan
  | .num q => some (.val q)
  | .str s => (parseNum s).map .val

/-- `pd.to_numeric(-, errors := "coerce")` on one cell (app.py:142-143):
never raises; an unparseable string becomes NaN. -/
def coerceNum : CVal → PyFloat
  | .null => .nan
  | .num q => .val q
  | .str s =>
    match parseNum s with
    | some q => .val q
    | none => .nan

/-- `Series.mean()` with the default NaN skipping: NaN when no valid value
exists. -/
def seriesMean (l : List PyFloat) : PyFloat :=
  let vals := l.filterMap (fun x =>
    match x with
    | .nan => none
    | .val q => some q)
  if vals.isEmpty then .nan
  else .val (vals.sum / (vals.length : Rat))

/-- Python `int(x)` on the popup's Production_tonnes value (app.py:154):
NaN raises (`none`), a number truncates (the exercised values are whole),
a string must be an integer literal. -/
def intOfCell : CVal → Option Int
  | .null => none
  | .num q => some (q.num / (q.den : Int))
  | .str s =>
    let cs := s.toList
    let signBody : Bool × List Char :=
      match cs with
      | '-' :: rest => (true, rest)
      | '+' :: rest => (false, rest)
      | _ => (false, cs)
    if signBody.2 ≠ [] ∧ signBody.2.all Char.isDigit then
      let n : Nat := signBody.2.foldl (fun n c => 10 * n + (c.toNat - 48)) 0
      some (if signBody.1 then -(n : Int) else (n : Int))
    else none

instance exceptDecEq {ε α : Type} [DecidableEq ε] [DecidableEq α] :
    DecidableEq (Except ε α) := fun a b =>
  match a, b with
  | .error e, .error f =>
    match decEq e f with
    | .isTrue h => .isTrue (h ▸ rfl)
    | .isFalse h => .isFalse fun hc => h (Except.error.inj hc)
  | .ok x, .ok y =>
    match decEq x y with
    | .isTrue h => .isTrue (h ▸ rfl)
    | .isFalse h => .isFalse fun hc => h (Except.ok.inj hc)
  | .error _, .ok _ => .isFalse fun hc => Except.noConfusion hc
  | .ok _, .error _ => .isFalse fun hc => Except.noConfusion hc

/-- One folium CircleMarker: position, colour, and the production figure of
its popup (the remaining popup text is presentation). -/
structure Marker where
  lat : PyFloat
  lon : PyFloat
  color : String
  prod : Int
deriving DecidableEq, Repr

/-- The data content of the folium map `build_map` returns: centre and
markers (tiles and zoom are presentation). -/
structure SiteMap where
  centerLat : PyFloat
  centerLon : PyFloat
  markers : List Marker
deriving DecidableEq, Repr

/-- `px.colors.qualitative.Plotly`, the fixed ten-colour palette. -/
def palette : List String :=
  ["#636EFA", "#EF553B", "#00CC96", "#AB63FA", "#FFA15A",
   "#19D3F3", "#FF6692", "#B6E880", "#FF97FF", "#FECB52"]

/-- Helper for `firstUnique`: drop the values seen before, in one pass. -/
def firstUniqueAux : List CVal → List CVal → List CVal
  | _, [] => []
  | seen, x :: xs =>
    if x ∈ seen then firstUniqueAux seen xs
    else x :: firstUniqueAux (x :: seen) xs

/-- pandas `Series.unique()`: the distinct values in order of first
occurrence. -/
def firstUnique (l : List CVal) : List CVal := firstUniqueAux [] l

/-- `df_sites[df_sites["MineralName"] == sel]` (app.py:141): raises when
the MineralName column is missing; otherwise keeps the rows whose
MineralName cell equals the string `sel` (a null or numeric cell never
equals a string). -/
def filterSites (df : DFrame) (s : String) : Except Unit DFrame :=
  match colIdxL df.cols "MineralName" with
  | none => .error ()
  | some j =>
    .ok { cols := df.cols,
          rows := df.rows.filter (fun r => decide (r[j]? = some (.str s))) }

/-- `df["MineralName"].dropna().unique().tolist()` (app.py:146): raises
when the column is missing; otherwise the distinct non-null MineralName
cells in row order. -/
def distinctMinerals (df : DFrame) : Except Unit (List CVal) :=
  match colIdxL df.cols "MineralName" with
  | none => .error ()
  | some j =>
    .ok (firstUnique (df.rows.filterMap (fun r =>
      match r[j]? with
      | some CVal.null => none
      | some v => some v
      | none => none)))

/-- The dict comprehension `minerals[i] ↦ palette[i % len(palette)]`
(app.py:148), as a lookup function. -/
def colorMap (minerals : List CVal) (v : CVal) : Option String :=
  (minerals.findIdx? (fun w => decide (w = v))).map
    (fun i => palette.getD (i % palette.length) "")

/-- The marker loop (app.py:149-157): a row whose Latitude or Longitude
access or `float()` conversion raises is skipped; the popup then computes
`int(r.get("Production_tonnes", 0))`, which raises — aborting `build_map`
— when that cell is NaN or a non-integer string; the colour is the colour
map's entry for the MineralName cell, white when absent. -/
def markerRows (df : DFrame) (cmap : CVal → Option String) :
    List (List CVal) → Except Unit (List Marker)
  | [] => .ok []
  | r :: rs =>
    match (df.cell r "Latitude").bind floatOfCell,
        (df.cell r "Longitude").bind floatOfCell with
    | some la, some lo =>
      match intOfCell ((df.cell r "Production_tonnes").getD (.num 0)) with
      | none => .error ()
      | some pr =>
        match markerRows df cmap rs with
        | .error e => .error e
        | .ok ms =>
          .ok ({ lat := la, lon := lo,
                 color := (cmap ((df.cell r "MineralName").getD .null)).getD
                   "#ffffff",
                 prod := pr } :: ms)
    | _, _ => markerRows df cmap rs

/-- `build_map(df_sites, sel)` (app.py:138-158).  `sel = none` models the
Python `None` argument; `sel in (None, "All")` skips the filter.  A raised
exception escapes as `.error`; `.ok none` is Python `None`. -/
def build_map (df_sites : DFrame) (sel : Option String) :
    Except Unit (Option SiteMap) :=
  if df_sites.empty then .ok none
  else
    match
      (if sel = none ∨ sel = some "All" then .ok df_sites
       else filterSites df_sites (sel.getD "")) with
    | .error e => .error e
    | .ok df =>
      let lat : PyFloat :=
        if df.cols.contains "Latitude" then
          seriesMean (df.rows.map (fun r =>
            coerceNum ((df.cell r "Latitude").getD .null)))
        else .val 0
      let lon : PyFloat :=
        if df.cols.contains "Longitude" then
          seriesMean (df.rows.map (fun r =>
            coerceNum ((df.cell r "Longitude").getD .null)))
        else .val 0
      match distinctMinerals df with
      | .error e => .error e
      | .ok minerals =>
        match markerRows df (colorMap minerals) df.rows with
        | .error e => .error e
        | .ok ms =>
          .ok (some { centerLat := pyOr0 lat, centerLon := pyOr0 lon,
                      markers := ms })

/-- Column header of a joined sites frame, the shape `build_map` receives
(the country columns `build_map` never touches are elided to CountryName). -/
def joinedSiteCols : List String :=
  ["SiteID", "SiteName", "CountryID", "MineralID", "Latitude", "Longitude",
   "Production_tonnes", "CountryName", "MineralName"]

/-- A non-empty sites table whose single row has unparseable coordinate
strings: the failing input of C6. -/
def nanCenterSites : DFrame :=
  { cols := joinedSiteCols,
    rows := [[.num 1, .str "A", .num 1, .num 1, .str "abc", .str "def",
              .num 100, .str "Zed", .str "Cobalt"]] }

/-- A sites table with one fully valid row and one row whose Latitude does
not parse. -/
def mixedSites : DFrame :=
  { cols := joinedSiteCols,
    rows := [[.num 1, .str "A", .num 1, .num 1, .num 10, .num 20,
              .num 100, .str "Zed", .str "Cobalt"],
             [.num 2, .str "B", .num 1, .num 1, .str "bad", .num 30,
              .num 50, .str "Zed", .str "Cobalt"]] }

/-- C6 (code bug): on a non-empty sites table whose rows have no parseable
coordinates, `build_map` centres the map at (NaN, NaN), not at the (0, 0)
the specification states — `mean()` of no valid values is NaN, NaN is
truthy in Python, so `lat or 0` keeps NaN.  The surrounding parts of the
claim do hold and are evaluated here: an empty table yields `None`, each
centre coordinate is the mean of the values of that column that parse, and
a row with an unparseable coordinate yields no marker. -/
theorem build_map_nan_center :
    (build_map nanCenterSites (some "All") =
      .ok (some { centerLat := .nan, centerLon := .nan, markers := [] }))
  ∧ PyFloat.nan ≠ PyFloat.val 0
  ∧ build_map { cols := joinedSiteCols, rows := [] } (some "All") = .ok none
  ∧ (build_map mixedSites (some "All") =
      .ok (some { centerLat := .val 10, centerLon := .val 25,
                  markers := [{ lat := .val 10, lon := .val 20,
                                color := "#636EFA", prod := 100 }] })) := by
  refine ⟨by decide, by decide, by decide, by decide⟩

/-! ### Distinctness of the mineral list and colour determinism -/

theorem mem_of_mem_firstUniqueAux :
    ∀ (seen l : List CVal) (a : CVal), a ∈ firstUniqueAux seen l → a ∈ l := by
  intro seen l
  induction l generalizing seen with
  | nil => intro a h; simp [firstUniqueAux] at h
  | cons x xs ih =>
    intro a h
    simp only [firstUniqueAux] at h
    by_cases hx : x ∈ seen
    · rw [if_pos hx] at h
      exact List.mem_cons_of_mem _ (ih seen a h)
    · rw [if_neg hx] at h
      rcases List.mem_cons.mp h with rfl | h2
      · exact List.mem_cons_self _ _
      · exact List.mem_cons_of_mem _ (ih (x :: seen) a h2)

theorem not_mem_seen_of_mem_firstUniqueAux :
    ∀ (seen l : List CVal) (a : CVal), a ∈ firstUniqueAux seen l →
      a ∉ seen := by
  intro seen l
  induction l generalizing seen with
  | nil => intro a h; simp [firstUniqueAux] at h
  | cons x xs ih =>
    intro a h
    simp only [firstUniqueAux] at h
    by_cases hx : x ∈ seen
    · rw [if_pos hx] at h
      exact ih seen a h
    · rw [if_neg hx] at h
      rcases List.mem_cons.mp h with rfl | h2
      · exact hx
      · intro hseen
        exact ih (x :: seen) a h2 (List.mem_cons_of_mem _ hseen)

theorem firstUniqueAux_nodup :
    ∀ (seen l : List CVal), (firstUniqueAux seen l).Nodup := by
  intro seen l
  induction l generalizing seen with
  | nil => simp [firstUniqueAux]
  | cons x xs ih =>
    simp only [firstUniqueAux]
    by_cases hx : x ∈ seen
    · rw [if_pos hx]; exact ih seen
    · rw [if_neg hx]
      refine List.nodup_cons.mpr ⟨fun hmem => ?_, ih (x :: seen)⟩
      exact not_mem_seen_of_mem_firstUniqueAux (x :: seen) xs x hmem
        (List.mem_cons_self _ _)

theorem firstUnique_nodup (l : List CVal) : (firstUnique l).Nodup :=
  firstUniqueAux_nodup [] l

theorem findIdx?_get_of_nodup :
    ∀ (l : List CVal), l.Nodup → ∀ (i : Nat) (h : i < l.length),
      l.findIdx? (fun w => decide (w = l.get ⟨i, h⟩)) = some i := by
  intro l
  induction l with
  | nil => intro _ i h; simp at h
  | cons x xs ih =>
    intro hnd i h
    cases i with
    | zero => simp [List.findIdx?_cons]
    | succ j =>
      have hxs : xs.Nodup := (List.nodup_cons.mp hnd).2
      have hx : x ∉ xs := (List.nodup_cons.mp hnd).1
      have hj : j < xs.length := by simpa using h
      have hget : (x :: xs).get ⟨j + 1, h⟩ = xs.get ⟨j, hj⟩ := rfl
      rw [hget, List.findIdx?_cons]
      have hne : (decide (x = xs.get ⟨j, hj⟩)) = false := by
        simp only [decide_eq_false_iff_not]
        intro heq
        exact hx (heq ▸ xs.get_mem j hj)
      rw [hne]
      simp only [Bool.false_eq_true, if_false]
      rw [List.findIdx?_succ, ih hxs j hj]
      rfl

theorem distinctMinerals_nodup {df : DFrame} {l : List CVal}
    (hl : distinctMinerals df = .ok l) : l.Nodup := by
  unfold distinctMinerals at hl
  cases hj : colIdxL df.cols "MineralName" with
  | none => rw [hj] at hl; exact absurd hl (by simp)
  | some j =>
    rw [hj] at hl
    injection hl with hl
    rw [← hl]
    exact firstUnique_nodup _

/-- A sites table with one valid row (the C8 concrete scenario). -/
def singleSite : DFrame :=
  { cols := joinedSiteCols,
    rows := [[.num 1, .str "A", .num 1, .num 1, .num 7, .num 8,
              .num 100, .str "Zed", .str "Cobalt"]] }

/-- C8: `build_map` is a pure function, so two runs over the same data and
filter agree; the colour assigned to the i-th distinct mineral name (in
filtered row order) is the palette entry at index i modulo the palette
size; and on a table with one valid row the result is a single marker with
the first palette colour, identical across repeated calls. -/
theorem mineral_colors_deterministic :
    (∀ (df : DFrame) (sel : Option String), build_map df sel = build_map df sel)
  ∧ (∀ (df : DFrame) (l : List CVal), distinctMinerals df = .ok l →
      ∀ (i : Nat) (h : i < l.length),
        colorMap l (l.get ⟨i, h⟩) =
          some (palette.getD (i % palette.length) ""))
  ∧ (build_map singleSite (some "All") =
      .ok (some { centerLat := .val 7, centerLon := .val 8,
                  markers := [{ lat := .val 7, lon := .val 8,
                                color := "#636EFA", prod := 100 }] })
      ∧ palette.getD (0 % palette.length) "" = "#636EFA") := by
  refine ⟨fun _ _ => rfl, ?_, ⟨by decide, by decide⟩⟩
  intro df l hl i h
  unfold colorMap
  rw [findIdx?_get_of_nodup l (distinctMinerals_nodup hl) i h]
  rfl

/-- Witness for the C8 theorem: the colour of the only distinct mineral of
the single-row table is the first palette entry. -/
theorem mineral_colors_deterministic_witness :
    colorMap [CVal.str "Cobalt"]
        (List.get [CVal.str "Cobalt"] ⟨0, by decide⟩) =
      some (palette.getD (0 % palette.length) "") :=
  mineral_colors_deterministic.2.1 singleSite [CVal.str "Cobalt"] (by decide)
    0 (by decide)

/-! ### Persistence of the user store (`save_users`) -/

/-- `USERS_FILE` (app.py:16). -/
def usersFilePath : String := "data/users.json"

/-- A file-system operation of the persistence layer. -/
inductive FsOp where
  | openTrunc (path : String)
  | writeAll (path : String) (content : String)
  | rename (src dst : String)
deriving DecidableEq, Repr

/-- `save_users(data)` (app.py:53-55) as the file operations it performs:
`open(USERS_FILE, "w")` truncates the store file in place, then
`json.dump` streams the serialised store into it.  No temporary file and
no rename step is involved. -/
def save_users_ops (serialized : String) : List FsOp :=
  [.openTrunc usersFilePath, .writeAll usersFilePath serialized]

/-- Effect of one completed operation on a file system (path to content). -/
def applyFsOp (fs : String → Option String) : FsOp → String → Option String
  | .openTrunc p => fun q => if q = p then some "" else fs q
  | .writeAll p s => fun q => if q = p then some ((fs p).getD "" ++ s) else fs q
  | .rename src dst => fun q =>
    if q = dst then fs src else if q = src then none else fs q

/-- The contents the store file can hold if the process crashes while the
operation list runs: the content before each operation, every prefix of an
interrupted `writeAll` to the store file, and the final content. -/
def crashContents (fs : String → Option String) :
    List FsOp → List (Option String)
  | [] => [fs usersFilePath]
  | op :: rest =>
    fs usersFilePath ::
      ((match op with
        | .writeAll p s =>
          if p = usersFilePath then
            (List.range (s.length + 1)).map
              (fun k => some ((fs p).getD "" ++ s.take k))
          else []
        | _ => []) ++ crashContents (applyFsOp fs op) rest)

/-- Whether an operation is a rename (the atomic-replace step the claim
requires). -/
def fsOpIsRename : FsOp → Bool
  | .rename _ _ => true
  | _ => false

/-- The path an operation writes to. -/
def fsOpPath : FsOp → String
  | .openTrunc p => p
  | .writeAll p _ => p
  | .rename _ dst => dst

/-- A file system in which the store file holds the serialised old store
"OLD". -/
def oldStoreFs : String → Option String :=
  fun p => if p = usersFilePath then some "OLD" else none

/-- C7 (code bug): `save_users` is not atomic.  Every operation it performs
writes directly to the store file and none is a rename, so there is no
write-to-temp-then-replace step; concretely, saving the serialised store
"NEW" over a store holding "OLD" can be interrupted leaving the file empty
(after the truncating open) or holding the proper prefix "NE" (mid-dump) —
contents that are neither the old nor the new store. -/
theorem save_users_not_atomic :
    ((save_users_ops "NEW").all (fun op =>
        !fsOpIsRename op && fsOpPath op == usersFilePath) = true)
  ∧ some "" ∈ crashContents oldStoreFs (save_users_ops "NEW")
  ∧ some "NE" ∈ crashContents oldStoreFs (save_users_ops "NEW")
  ∧ (some "" : Option String) ≠ some "OLD"
  ∧ (some "" : Option String) ≠ some "NEW"
  ∧ (some "NE" : Option String) ≠ some "OLD"
  ∧ (some "NE" : Option String) ≠ some "NEW" := by
  decide

end ACM
